import Mathlib

/-!
Shallow embedding of the axis-lh-server monitoring service
(health engine, TTL cache, log ring, request dispatcher, metrics text),
translated from `src/axis-lh-server/app/*.c`.

C `double` values are modelled as `ℚ`; `time_t` as `ℤ`; fixed-size C char
arrays as `String` with explicit truncation; fallible collaborators
(file reads, network fetches) as `Option` parameters.
-/

namespace AxisLH

/-- `HealthStatus` enum of health.h (HEALTHY = 0, DEGRADED = 1, UNHEALTHY = 2). -/
inductive HealthStatus
| healthy
| degraded
| unhealthy
deriving DecidableEq, Repr, Inhabited

/-- Numeric value of the `HealthStatus` enum constant, as in health.h. -/
def HealthStatus.toNat : HealthStatus → Nat
| .healthy => 0
| .degraded => 1
| .unhealthy => 2

/-- `ThresholdType` enum of health.h. -/
inductive ThresholdType
| lowerBad
| higherBad
deriving DecidableEq, Repr, Inhabited

/-- `HealthCheck` struct of health.h (the derived `status` field is computed,
not stored, in this embedding). -/
structure HealthCheck where
  name : String
  value : ℚ
  warning_threshold : ℚ
  critical_threshold : ℚ
  threshold_type : ThresholdType
deriving DecidableEq, Repr, Inhabited

/-- `DependencyCheck` struct of health.h (derived `status` computed separately). -/
structure DependencyCheck where
  service : String
  reachable : Bool
deriving DecidableEq, Repr, Inhabited

/-- `calculate_check_status` of health.c.  The argument is an `Option` because
the C function takes a pointer and returns UNHEALTHY on NULL. -/
def calculate_check_status : Option HealthCheck → HealthStatus
| none => .unhealthy
| some check =>
  if check.threshold_type = ThresholdType.lowerBad then
    if check.value < check.critical_threshold then .unhealthy
    else if check.value < check.warning_threshold then .degraded
    else .healthy
  else
    if check.value > check.critical_threshold then .unhealthy
    else if check.value > check.warning_threshold then .degraded
    else .healthy

/-- The status update `if (status > overall) overall = status` of
`calculate_overall_status`, comparing the enum values. -/
def statusMax (overall status : HealthStatus) : HealthStatus :=
  if overall.toNat < status.toNat then status else overall

/-- Status assigned to a dependency in `calculate_overall_status`:
`reachable ? HEALTHY : DEGRADED`. -/
def dependency_status (dep : DependencyCheck) : HealthStatus :=
  if dep.reachable then .healthy else .degraded

/-- `calculate_overall_status` of health.c: fold the worst status over all
checks, then over all dependencies, starting from HEALTHY. -/
def calculate_overall_status (checks : List HealthCheck) (deps : List DependencyCheck) :
    HealthStatus :=
  let afterChecks :=
    checks.foldl (fun overall c => statusMax overall (calculate_check_status (some c)))
      HealthStatus.healthy
  deps.foldl (fun overall d => statusMax overall (dependency_status d)) afterChecks

/-- Outcomes of the collectors consumed by `generate_health_report`:
`get_memory_info` (MemAvailable in MB), `get_disk_stats` (free MB),
the thermal-zone read of `get_temperature` (millidegrees, `none` when the
open/read/sscanf fails), and `check_i2c_bus_available`. -/
structure HealthCollectors where
  memory_available_mb : Option ℚ
  disk_free_mb : Option ℚ
  thermal_millidegrees : Option ℤ
  i2c_bus_available : Bool
deriving DecidableEq, Repr, Inhabited

/-- `get_temperature` of health.c: -1.0 when the thermal zone cannot be read,
otherwise millidegrees / 1000. -/
def get_temperature (thermal : Option ℤ) : ℚ :=
  match thermal with
  | none => -1
  | some millideg => (millideg : ℚ) / 1000

/-- The four checks built by `generate_health_report` of health.c, with its
exact names, sentinel values, thresholds and directions. -/
def health_report_checks (c : HealthCollectors) : List HealthCheck :=
  [ { name := "memory_available_mb",
      value := match c.memory_available_mb with | some v => v | none => -1,
      warning_threshold := 50,
      critical_threshold := 20,
      threshold_type := ThresholdType.lowerBad },
    { name := "disk_free_mb",
      value := match c.disk_free_mb with | some v => v | none => -1,
      warning_threshold := 100,
      critical_threshold := 50,
      threshold_type := ThresholdType.lowerBad },
    { name := "temperature_celsius",
      value := get_temperature c.thermal_millidegrees,
      warning_threshold := 70,
      critical_threshold := 80,
      threshold_type := ThresholdType.higherBad },
    { name := "cpu_usage_percent",
      value := 0,
      warning_threshold := 80,
      critical_threshold := 95,
      threshold_type := ThresholdType.higherBad } ]

/-- The one dependency built by `generate_health_report`. -/
def health_report_dependencies (c : HealthCollectors) : List DependencyCheck :=
  [ { service := "i2c-bus-0", reachable := c.i2c_bus_available } ]

/-- Overall status of the report built by `generate_health_report`. -/
def generate_health_report_overall (c : HealthCollectors) : HealthStatus :=
  calculate_overall_status (health_report_checks c) (health_report_dependencies c)

/-- C10: `calculate_check_status` is total including the NULL case: a null
measurement pointer yields UNHEALTHY, the worst status, so every caller
receives a defined status. -/
theorem C10_null_check_is_unhealthy :
    calculate_check_status none = HealthStatus.unhealthy := rfl

/-- C1 (code bug evaluation): the health-report builder stores the sentinel
-1.0 for a failed temperature collector, but that measurement has direction
HigherIsBad with thresholds 70/80, so `calculate_check_status` returns
HEALTHY for it — unavailable temperature data reports falsely healthy. -/
theorem C1_failed_temperature_sentinel_evaluates_healthy :
    (health_report_checks
        { memory_available_mb := some 500,
          disk_free_mb := some 1000,
          thermal_millidegrees := none,
          i2c_bus_available := true }).getD 2 default
      = { name := "temperature_celsius",
          value := -1,
          warning_threshold := 70,
          critical_threshold := 80,
          threshold_type := ThresholdType.higherBad } ∧
    calculate_check_status
      (some ((health_report_checks
        { memory_available_mb := some 500,
          disk_free_mb := some 1000,
          thermal_millidegrees := none,
          i2c_bus_available := true }).getD 2 default))
      = HealthStatus.healthy := by
  constructor
  · rfl
  · decide

lemma statusMax_right_comm (b x y : HealthStatus) :
    statusMax (statusMax b x) y = statusMax (statusMax b y) x := by
  cases b <;> cases x <;> cases y <;> rfl

lemma toNat_le_statusMax_left (a b : HealthStatus) : a.toNat ≤ (statusMax a b).toNat := by
  cases a <;> cases b <;> decide

lemma toNat_le_statusMax_right (a b : HealthStatus) : b.toNat ≤ (statusMax a b).toNat := by
  cases a <;> cases b <;> decide

lemma statusMax_eq_or (a b : HealthStatus) : statusMax a b = a ∨ statusMax a b = b := by
  cases a <;> cases b <;> decide

lemma foldl_statusMax_le (l : List HealthStatus) (b : HealthStatus) :
    b.toNat ≤ (l.foldl statusMax b).toNat ∧
      ∀ s ∈ l, s.toNat ≤ (l.foldl statusMax b).toNat := by
  induction l generalizing b with
  | nil => simp
  | cons hd tl ih =>
    obtain ⟨ih1, ih2⟩ := ih (statusMax b hd)
    refine ⟨le_trans (toNat_le_statusMax_left b hd) ih1, ?_⟩
    intro s hs
    rw [List.mem_cons] at hs
    rcases hs with rfl | hs
    · exact le_trans (toNat_le_statusMax_right b s) ih1
    · exact ih2 s hs

lemma foldl_statusMax_mem (l : List HealthStatus) (b : HealthStatus) :
    l.foldl statusMax b = b ∨ l.foldl statusMax b ∈ l := by
  induction l generalizing b with
  | nil => left; rfl
  | cons hd tl ih =>
    rw [List.foldl_cons]
    rcases ih (statusMax b hd) with h | h
    · rw [h]
      rcases statusMax_eq_or b hd with h' | h'
      · exact Or.inl h'
      · exact Or.inr (by rw [h']; exact List.mem_cons_self hd tl)
    · exact Or.inr (List.mem_cons_of_mem hd h)

lemma calculate_overall_status_eq_fold (checks : List HealthCheck)
    (deps : List DependencyCheck) :
    calculate_overall_status checks deps =
      ((checks.map (fun c => calculate_check_status (some c)) ++
          deps.map dependency_status).foldl statusMax HealthStatus.healthy) := by
  simp [calculate_overall_status, List.foldl_append, List.foldl_map]

/-- C2: directional threshold evaluation of `calculate_check_status`: for
LowerIsBad, value below critical is Unhealthy, in [critical, warning) is
Degraded, and (for consistently ordered thresholds) at or above warning is
Healthy; for HigherIsBad the comparisons mirror; all comparisons are strict,
so a boundary value falls on the safe side. -/
theorem C2_threshold_evaluation (check : HealthCheck) :
    (check.threshold_type = ThresholdType.lowerBad →
      (check.value < check.critical_threshold →
        calculate_check_status (some check) = HealthStatus.unhealthy) ∧
      (check.critical_threshold ≤ check.value → check.value < check.warning_threshold →
        calculate_check_status (some check) = HealthStatus.degraded) ∧
      (check.critical_threshold ≤ check.warning_threshold →
        check.warning_threshold ≤ check.value →
        calculate_check_status (some check) = HealthStatus.healthy)) ∧
    (check.threshold_type = ThresholdType.higherBad →
      (check.critical_threshold < check.value →
        calculate_check_status (some check) = HealthStatus.unhealthy) ∧
      (check.value ≤ check.critical_threshold → check.warning_threshold < check.value →
        calculate_check_status (some check) = HealthStatus.degraded) ∧
      (check.warning_threshold ≤ check.critical_threshold →
        check.value ≤ check.warning_threshold →
        calculate_check_status (some check) = HealthStatus.healthy)) := by
  constructor
  · intro ht
    refine ⟨fun h => ?_, fun h1 h2 => ?_, fun h1 h2 => ?_⟩ <;>
      simp only [calculate_check_status, ht, if_true] <;>
      split_ifs <;> first | rfl | linarith
  · intro ht
    refine ⟨fun h => ?_, fun h1 h2 => ?_, fun h1 h2 => ?_⟩ <;>
      simp only [calculate_check_status, ht] <;>
      split_ifs <;> first | rfl | linarith | simp_all

/-- Witness for C2 at a concrete measurement (LowerIsBad, thresholds 20/50,
value 60, which is at the safe side of the warning threshold). -/
theorem C2_threshold_evaluation_witness :
    ({ name := "m", value := 60, warning_threshold := 50, critical_threshold := 20,
       threshold_type := ThresholdType.lowerBad : HealthCheck }.threshold_type
        = ThresholdType.lowerBad) ∧
    (20 : ℚ) ≤ 50 ∧ (50 : ℚ) ≤ 60 ∧
    calculate_check_status
      (some { name := "m", value := 60, warning_threshold := 50, critical_threshold := 20,
              threshold_type := ThresholdType.lowerBad }) = HealthStatus.healthy :=
  ⟨rfl, by norm_num, by norm_num,
    ((C2_threshold_evaluation _).1 rfl).2.2 (by norm_num) (by norm_num)⟩

/-- C3: `calculate_overall_status` is the maximum severity (on the scale
Healthy < Degraded < Unhealthy given by the enum values) over the statuses of
all measurements and all dependencies (a dependency being Healthy if reachable
and Degraded otherwise), it is Healthy on empty inputs, and it is invariant
under permutation of either input list. -/
theorem C3_overall_is_max_severity (checks checks' : List HealthCheck)
    (deps deps' : List DependencyCheck)
    (hc : checks.Perm checks') (hd : deps.Perm deps') :
    (calculate_overall_status [] [] = HealthStatus.healthy) ∧
    (∀ s ∈ checks.map (fun c => calculate_check_status (some c)) ++
        deps.map dependency_status,
      s.toNat ≤ (calculate_overall_status checks deps).toNat) ∧
    (calculate_overall_status checks deps ∈
        checks.map (fun c => calculate_check_status (some c)) ++
          deps.map dependency_status ∨
      calculate_overall_status checks deps = HealthStatus.healthy) ∧
    calculate_overall_status checks deps = calculate_overall_status checks' deps' := by
  refine ⟨rfl, ?_, ?_, ?_⟩
  · intro s hs
    rw [calculate_overall_status_eq_fold]
    exact (foldl_statusMax_le _ _).2 s hs
  · rw [calculate_overall_status_eq_fold]
    rcases foldl_statusMax_mem
        (checks.map (fun c => calculate_check_status (some c)) ++
          deps.map dependency_status) HealthStatus.healthy with h | h
    · exact Or.inr h
    · exact Or.inl h
  · rw [calculate_overall_status_eq_fold, calculate_overall_status_eq_fold]
    exact ((hc.map _).append (hd.map _)).foldl_eq'
      (fun x _ y _ z => statusMax_right_comm z x y) _

/-- Witness for C3 on concrete two-element lists and a transposition of each. -/
theorem C3_overall_is_max_severity_witness :
    calculate_overall_status
        [ { name := "a", value := 10, warning_threshold := 50, critical_threshold := 20,
            threshold_type := ThresholdType.lowerBad },
          { name := "b", value := 90, warning_threshold := 50, critical_threshold := 20,
            threshold_type := ThresholdType.lowerBad } ]
        [ { service := "d1", reachable := false }, { service := "d2", reachable := true } ] =
      calculate_overall_status
        [ { name := "b", value := 90, warning_threshold := 50, critical_threshold := 20,
            threshold_type := ThresholdType.lowerBad },
          { name := "a", value := 10, warning_threshold := 50, critical_threshold := 20,
            threshold_type := ThresholdType.lowerBad } ]
        [ { service := "d2", reachable := true }, { service := "d1", reachable := false } ] :=
  (C3_overall_is_max_severity _ _ _ _ (List.Perm.swap _ _ _) (List.Perm.swap _ _ _)).2.2.2

/-- `CachedDouble` / `CachedDeviceInfo` of vapix.c, generic in the cached
payload; `time_t` is modelled as `ℤ`. -/
structure CacheEntry (α : Type) where
  value : α
  timestamp : ℤ
  valid : Bool
  ttl_seconds : ℤ
deriving DecidableEq, Repr

/-- The common body of `get_cached_temperature` / `get_cached_device_info` of
vapix.c: serve the cached value while valid and within TTL; otherwise fetch
(the fetch outcome is the `fetch` parameter), storing value and timestamp and
setting `valid` on success; on failure serve the stale value when one is
valid, else fail. -/
def get_cached {α : Type} (cache : CacheEntry α) (now : ℤ) (fetch : Option α) :
    Option α × CacheEntry α :=
  if cache.valid = true ∧ now - cache.timestamp < cache.ttl_seconds then
    (some cache.value, cache)
  else
    match fetch with
    | some v => (some v, { cache with value := v, timestamp := now, valid := true })
    | none =>
      if cache.valid = true then (some cache.value, cache) else (none, cache)

/-- The zero-initialized `temperature_cache` global of vapix.c (ttl 60). -/
def temperature_cache_init : CacheEntry ℚ :=
  { value := 0, timestamp := 0, valid := false, ttl_seconds := 60 }

/-- `get_cached_temperature` of vapix.c; the fetch outcome
(`vapix_get_temperature`) is passed as a parameter. -/
def get_cached_temperature (cache : CacheEntry ℚ) (now : ℤ) (fetch : Option ℚ) :
    Option ℚ × CacheEntry ℚ :=
  get_cached cache now fetch

/-- `DeviceInfo` struct of vapix.h (fixed-width char arrays as `String`). -/
structure DeviceInfo where
  serial_number : String
  firmware_version : String
  model : String
  architecture : String
  soc : String
deriving DecidableEq, Repr, Inhabited

/-- `memset(&fresh_info, 0, sizeof(DeviceInfo))`: all identifier fields empty. -/
def emptyDeviceInfo : DeviceInfo :=
  { serial_number := "", firmware_version := "", model := "", architecture := "", soc := "" }

/-- `snprintf(dst, size, "%s", src)` into a `char[size]`: keeps at most
`size - 1` characters of `src`. -/
def snprintf_copy (size : ℕ) (s : String) : String :=
  String.mk (s.data.take (size - 1))

/-- The optional `propertyList` identifier properties of a successfully
parsed `basicdeviceinfo` JSON response; `json_string_value` yields NULL
(here `none`) for an absent property. -/
structure DevicePropertyList where
  serialNumber : Option String
  version : Option String
  prodNbr : Option String
  architecture : Option String
  soc : Option String
deriving DecidableEq, Repr

/-- `parse_device_info_response` of vapix.c for a structurally well-formed
response: each present property overwrites the corresponding `info` field
(snprintf-truncated to the field size: 64/64/64/32/64); an absent property
leaves that field of `info` untouched. -/
def parse_device_info_response (resp : DevicePropertyList) (info : DeviceInfo) : DeviceInfo :=
  let info1 := match resp.serialNumber with
    | some s => { info with serial_number := snprintf_copy 64 s }
    | none => info
  let info2 := match resp.version with
    | some s => { info1 with firmware_version := snprintf_copy 64 s }
    | none => info1
  let info3 := match resp.prodNbr with
    | some s => { info2 with model := snprintf_copy 64 s }
    | none => info2
  let info4 := match resp.architecture with
    | some s => { info3 with architecture := snprintf_copy 32 s }
    | none => info3
  match resp.soc with
    | some s => { info4 with soc := snprintf_copy 64 s }
    | none => info4

/-- The zero-initialized `device_info_cache` global of vapix.c (ttl 300). -/
def device_info_cache_init : CacheEntry DeviceInfo :=
  { value := emptyDeviceInfo, timestamp := 0, valid := false, ttl_seconds := 300 }

/-- `get_cached_device_info` of vapix.c: the TTL-cache wrapper whose
successful fetch parses the response into a zero-initialized `fresh_info`
(`memset` followed by `parse_device_info_response`) and then replaces the
whole cached record with it; `fetchResp = none` models a failed network
fetch or an unparsable response. -/
def get_cached_device_info (cache : CacheEntry DeviceInfo) (now : ℤ)
    (fetchResp : Option DevicePropertyList) : Option DeviceInfo × CacheEntry DeviceInfo :=
  get_cached cache now (fetchResp.map (fun r => parse_device_info_response r emptyDeviceInfo))

/-- C4: the cached-accessor lifecycle: on a cache miss, a successful fetch
stores the value with `valid = true` and timestamp `now` and returns it, and
any later call within the TTL serves exactly that stored value with the state
unchanged, regardless of the fetch outcome parameter (no re-fetch is
consulted); a failing fetch with a previously valid value serves the stale
value with the state (including the timestamp) unchanged; a failing fetch
with no valid value fails. -/
theorem C4_cache_lifecycle {α : Type} (cache : CacheEntry α) (now : ℤ) (v : α)
    (hmiss : ¬(cache.valid = true ∧ now - cache.timestamp < cache.ttl_seconds)) :
    ((get_cached cache now (some v)).1 = some v ∧
     (get_cached cache now (some v)).2.valid = true ∧
     (get_cached cache now (some v)).2.value = v ∧
     (get_cached cache now (some v)).2.timestamp = now ∧
     (∀ (later : ℤ) (fetch : Option α),
        later - (get_cached cache now (some v)).2.timestamp
            < (get_cached cache now (some v)).2.ttl_seconds →
        get_cached (get_cached cache now (some v)).2 later fetch
          = (some v, (get_cached cache now (some v)).2))) ∧
    (cache.valid = true → get_cached cache now none = (some cache.value, cache)) ∧
    (cache.valid = false → get_cached cache now none = (none, cache)) := by
  have hstore : get_cached cache now (some v)
      = (some v, { cache with value := v, timestamp := now, valid := true }) := by
    unfold get_cached; rw [if_neg hmiss]
  refine ⟨?_, fun hvalid => ?_, fun hinvalid => ?_⟩
  · rw [hstore]
    refine ⟨rfl, rfl, rfl, rfl, ?_⟩
    intro later fetch hlt
    unfold get_cached
    rw [if_pos ⟨rfl, hlt⟩]
  · unfold get_cached
    rw [if_neg hmiss, if_pos hvalid]
  · have hne : ¬(cache.valid = true) := by rw [hinvalid]; decide
    unfold get_cached
    rw [if_neg hmiss, if_neg hne]

/-- Witness for C4: a fresh temperature cache, a successful fetch of 25 at
time 0, then a call at time 30 (within the 60s TTL) with a failing fetch
still serves 25 with the state unchanged; a failing fetch on the fresh cache
fails. -/
theorem C4_cache_lifecycle_witness :
    ¬(temperature_cache_init.valid = true ∧
        (0 : ℤ) - temperature_cache_init.timestamp < temperature_cache_init.ttl_seconds) ∧
    (get_cached temperature_cache_init 0 (some (25 : ℚ))).1 = some 25 ∧
    (get_cached temperature_cache_init 0 (some (25 : ℚ))).2.valid = true ∧
    get_cached (get_cached temperature_cache_init 0 (some (25 : ℚ))).2 30 none
      = (some 25, (get_cached temperature_cache_init 0 (some (25 : ℚ))).2) ∧
    get_cached temperature_cache_init 0 (none : Option ℚ) = (none, temperature_cache_init) :=
  have h := C4_cache_lifecycle temperature_cache_init 0 (25 : ℚ) (by decide)
  ⟨by decide, h.1.1, h.1.2.1, h.1.2.2.2.2 30 none (by decide), h.2.2 rfl⟩

/-- Reachable states of one cache instance: starting from `init`, any
sequence of `get_cached` calls with arbitrary call times and fetch outcomes;
`fetched` accumulates the values returned by the successful fetches. -/
inductive CacheTrace {α : Type} (init : CacheEntry α) : CacheEntry α → List α → Prop
| init : CacheTrace init init []
| step (cache : CacheEntry α) (fetched : List α) (now : ℤ) (fetch : Option α) :
    CacheTrace init cache fetched →
    CacheTrace init (get_cached cache now fetch).2 (fetched ++ fetch.toList)

lemma get_cached_state_cases {α : Type} (cache : CacheEntry α) (now : ℤ)
    (fetch : Option α) :
    (get_cached cache now fetch).2 = cache ∨
    (∃ v, fetch = some v ∧ (get_cached cache now fetch).2.value = v ∧
      (get_cached cache now fetch).2.valid = true) := by
  cases fetch with
  | some v =>
    unfold get_cached
    split_ifs
    · exact Or.inl rfl
    all_goals exact Or.inr ⟨v, rfl, rfl, rfl⟩
  | none =>
    unfold get_cached
    split_ifs <;> exact Or.inl rfl

lemma cache_valid_value_fetched {α : Type} {init : CacheEntry α}
    (hinit : init.valid = false) {cache : CacheEntry α} {fetched : List α}
    (h : CacheTrace init cache fetched) : cache.valid = true → cache.value ∈ fetched := by
  induction h with
  | init => intro hv; rw [hinit] at hv; cases hv
  | step cache fetched now fetch _htr ih =>
    intro hv
    rcases get_cached_state_cases cache now fetch with heq | ⟨v, hf, hval, _⟩
    · rw [heq] at hv ⊢
      exact List.mem_append_left _ (ih hv)
    · rw [hval, hf]
      exact List.mem_append_right _ (by simp [Option.toList])

/-- C9: for both cache instances (temperature and device info), in every
reachable state `valid = true` implies the stored value was produced by a
successful fetch along the trace — no operation fabricates a cached value. -/
theorem C9_cache_validity_invariant :
    (∀ (c : CacheEntry ℚ) (fs : List ℚ),
        CacheTrace temperature_cache_init c fs → c.valid = true → c.value ∈ fs) ∧
    (∀ (c : CacheEntry DeviceInfo) (fs : List DeviceInfo),
        CacheTrace device_info_cache_init c fs → c.valid = true → c.value ∈ fs) :=
  ⟨fun _ _ h hv => cache_valid_value_fetched rfl h hv,
   fun _ _ h hv => cache_valid_value_fetched rfl h hv⟩

/-- Witness for C9: the state after one successful temperature fetch of 21 is
valid and its stored value is among the successfully fetched values. -/
theorem C9_cache_validity_invariant_witness :
    (get_cached temperature_cache_init 5 (some (21 : ℚ))).2.valid = true ∧
    (get_cached temperature_cache_init 5 (some (21 : ℚ))).2.value
      ∈ ([] ++ (some (21 : ℚ)).toList) :=
  ⟨by decide,
   C9_cache_validity_invariant.1 _ _
     (CacheTrace.step _ _ 5 (some 21) CacheTrace.init) (by decide)⟩

/-- C8 counterexample: with serial number "ABC123" validly cached and the TTL
expired, a successful refresh whose response lacks the SerialNumber property
leaves the cached serial number EMPTY (from the zero-initialized fresh
struct), not the previously cached "ABC123". -/
theorem C8_absent_field_resets_cached_value :
    ((get_cached_device_info
        { value := { serial_number := "ABC123", firmware_version := "11.0",
                     model := "M1", architecture := "armv7", soc := "S1" },
          timestamp := 0, valid := true, ttl_seconds := 300 }
        300
        (some { serialNumber := none, version := some "12.0", prodNbr := none,
                architecture := none, soc := none })).2.value.serial_number = "") ∧
    "" ≠ "ABC123" := by
  exact ⟨rfl, by decide⟩

/-- C8 amended: `parse_device_info_response` itself leaves a field of its
destination struct unchanged when the property is absent and overwrites it
(truncated) when present; but `get_cached_device_info` parses into a
zero-initialized struct and replaces the whole cached record, so after a
successful refresh the cached record equals the parse of the response into
the empty struct — an absent field therefore ends up empty in the cached
record rather than keeping the previously cached value. -/
theorem C8_optional_fields_amended (resp : DevicePropertyList) (info : DeviceInfo)
    (cache : CacheEntry DeviceInfo) (now : ℤ)
    (hmiss : ¬(cache.valid = true ∧ now - cache.timestamp < cache.ttl_seconds)) :
    ((resp.serialNumber = none →
        (parse_device_info_response resp info).serial_number = info.serial_number) ∧
     (∀ s, resp.serialNumber = some s →
        (parse_device_info_response resp info).serial_number = snprintf_copy 64 s) ∧
     (resp.version = none →
        (parse_device_info_response resp info).firmware_version = info.firmware_version) ∧
     (∀ s, resp.version = some s →
        (parse_device_info_response resp info).firmware_version = snprintf_copy 64 s) ∧
     (resp.prodNbr = none →
        (parse_device_info_response resp info).model = info.model) ∧
     (∀ s, resp.prodNbr = some s →
        (parse_device_info_response resp info).model = snprintf_copy 64 s) ∧
     (resp.architecture = none →
        (parse_device_info_response resp info).architecture = info.architecture) ∧
     (∀ s, resp.architecture = some s →
        (parse_device_info_response resp info).architecture = snprintf_copy 32 s) ∧
     (resp.soc = none →
        (parse_device_info_response resp info).soc = info.soc) ∧
     (∀ s, resp.soc = some s →
        (parse_device_info_response resp info).soc = snprintf_copy 64 s)) ∧
    ((get_cached_device_info cache now (some resp)).2.value
        = parse_device_info_response resp emptyDeviceInfo) ∧
    (resp.serialNumber = none →
      (get_cached_device_info cache now (some resp)).2.value.serial_number = "") := by
  obtain ⟨s1, s2, s3, s4, s5⟩ := resp
  refine ⟨?_, ?_, ?_⟩
  · cases s1 <;> cases s2 <;> cases s3 <;> cases s4 <;> cases s5 <;>
      simp [parse_device_info_response]
  · simp [get_cached_device_info, get_cached, hmiss]
  · intro hs1
    simp only at hs1
    subst hs1
    simp only [get_cached_device_info, Option.map, get_cached, if_neg hmiss]
    cases s2 <;> cases s3 <;> cases s4 <;> cases s5 <;>
      simp [parse_device_info_response, emptyDeviceInfo]

/-- Witness for C8's amended statement at a concrete expired cache and a
response carrying only the Version property. -/
theorem C8_optional_fields_amended_witness :
    ¬({ value := emptyDeviceInfo, timestamp := 0, valid := true,
        ttl_seconds := 300 : CacheEntry DeviceInfo }.valid = true ∧
      (300 : ℤ) - 0 < 300) ∧
    (get_cached_device_info
        { value := emptyDeviceInfo, timestamp := 0, valid := true, ttl_seconds := 300 }
        300
        (some { serialNumber := none, version := some "12.0", prodNbr := none,
                architecture := none, soc := none })).2.value.serial_number = "" :=
  ⟨by decide,
   (C8_optional_fields_amended
      { serialNumber := none, version := some "12.0", prodNbr := none,
        architecture := none, soc := none }
      emptyDeviceInfo
      { value := emptyDeviceInfo, timestamp := 0, valid := true, ttl_seconds := 300 }
      300 (by decide)).2.2 rfl⟩

def MAX_LOG_ENTRIES : ℕ := 100

def MAX_MESSAGE_LENGTH : ℕ := 256

def MAX_SEVERITY_LENGTH : ℕ := 16

/-- `LogEntry` of log_buffer.h. -/
structure LogEntry where
  timestamp : ℤ
  severity : String
  message : String
deriving DecidableEq, Repr, Inhabited

/-- `LogBuffer` of log_buffer.h; the fixed `entries[MAX_LOG_ENTRIES]` array is
modelled as a total function, always read at indices reduced modulo the
capacity. -/
structure LogBuffer where
  entries : ℕ → LogEntry
  head : ℕ
  count : ℕ

/-- `log_buffer_init` of log_buffer.c: zeroed buffer. -/
def log_buffer_init : LogBuffer :=
  { entries := fun _ => default, head := 0, count := 0 }

/-- The entry built by `log_event`: wall-clock timestamp, severity truncated
by `strncpy(..., MAX_SEVERITY_LENGTH - 1)` with a forced NUL, message
truncated by `vsnprintf(..., MAX_MESSAGE_LENGTH, ...)`. -/
def mk_log_entry (now : ℤ) (severity message : String) : LogEntry :=
  { timestamp := now,
    severity := String.mk (severity.data.take (MAX_SEVERITY_LENGTH - 1)),
    message := String.mk (message.data.take (MAX_MESSAGE_LENGTH - 1)) }

/-- The ring update of `log_event` of log_buffer.c: write the entry at the
head slot, advance the head modulo the capacity, increment the count
saturating at the capacity. -/
def log_buffer_append (b : LogBuffer) (e : LogEntry) : LogBuffer :=
  { entries := fun i => if i = b.head then e else b.entries i,
    head := (b.head + 1) % MAX_LOG_ENTRIES,
    count := if b.count < MAX_LOG_ENTRIES then b.count + 1 else b.count }

/-- `log_event` of log_buffer.c (the syslog forwarding is outside the ring). -/
def log_event (b : LogBuffer) (now : ℤ) (severity message : String) : LogBuffer :=
  log_buffer_append b (mk_log_entry now severity message)

/-- `get_recent_logs_limited` of log_buffer.c: export
`min(max_entries, count)` entries, walking forward from the oldest retained
slot `(head + MAX_LOG_ENTRIES - entries_to_export) % MAX_LOG_ENTRIES`,
oldest first. -/
def get_recent_logs_limited (b : LogBuffer) (max_entries : ℕ) : List LogEntry :=
  let entries_to_export := if max_entries < b.count then max_entries else b.count
  let start_idx := (b.head + MAX_LOG_ENTRIES - entries_to_export) % MAX_LOG_ENTRIES
  (List.range entries_to_export).map
    (fun i => b.entries ((start_idx + i) % MAX_LOG_ENTRIES))

/-- `get_recent_logs` of log_buffer.c. -/
def get_recent_logs (b : LogBuffer) : List LogEntry :=
  get_recent_logs_limited b MAX_LOG_ENTRIES

/-- The ring state after appending the entries `es`, oldest first, starting
from the fresh buffer. -/
def appendAll (es : List LogEntry) : LogBuffer :=
  es.foldl log_buffer_append log_buffer_init

lemma appendAll_state (es : List LogEntry) :
    (appendAll es).head = es.length % MAX_LOG_ENTRIES ∧
    (appendAll es).count = min es.length MAX_LOG_ENTRIES ∧
    ∀ t, t < es.length → es.length ≤ t + MAX_LOG_ENTRIES →
      (appendAll es).entries (t % MAX_LOG_ENTRIES) = es.getD t default := by
  induction es using List.reverseRecOn with
  | nil =>
    refine ⟨rfl, rfl, ?_⟩
    intro t ht
    simp at ht
  | append_singleton es e ih =>
    obtain ⟨hh, hc, he⟩ := ih
    have hApp : appendAll (es ++ [e]) = log_buffer_append (appendAll es) e := by
      simp [appendAll, List.foldl_append]
    rw [hApp]
    simp only [MAX_LOG_ENTRIES] at hh hc he ⊢
    refine ⟨?_, ?_, ?_⟩
    · show ((appendAll es).head + 1) % 100 = (es ++ [e]).length % 100
      rw [hh, List.length_append]
      simp only [List.length_singleton]
      omega
    · show (if (appendAll es).count < 100 then (appendAll es).count + 1
          else (appendAll es).count) = min (es ++ [e]).length 100
      rw [hc, List.length_append]
      simp only [List.length_singleton]
      split_ifs <;> omega
    · intro t ht hge
      rw [List.length_append] at ht hge
      simp only [List.length_singleton] at ht hge
      show (if t % 100 = (appendAll es).head then e
          else (appendAll es).entries (t % 100)) = (es ++ [e]).getD t default
      rw [hh]
      by_cases hteq : t = es.length
      · subst hteq
        rw [if_pos rfl]
        rw [List.getD_eq_getElem _ _ (by simp)]
        simp
      · have htlt : t < es.length := by omega
        have hmod : t % 100 ≠ es.length % 100 := by omega
        rw [if_neg hmod, he t htlt (by omega)]
        rw [List.getD_eq_getElem _ _ (by omega),
          List.getD_eq_getElem _ _ (by simp; omega)]
        rw [List.getElem_append_left htlt]

/-- C5: snapshots of the log ring: after more than `MAX_LOG_ENTRIES` appends,
a snapshot requesting at least `MAX_LOG_ENTRIES` entries returns exactly the
last `MAX_LOG_ENTRIES` appended entries, oldest to newest; after fewer than
`MAX_LOG_ENTRIES` appends, a snapshot requesting at least that many entries
returns exactly the appended entries in append order. -/
theorem C5_log_ring_snapshot (es : List LogEntry) (n : ℕ) :
    (MAX_LOG_ENTRIES < es.length → MAX_LOG_ENTRIES ≤ n →
      get_recent_logs_limited (appendAll es) n
        = es.drop (es.length - MAX_LOG_ENTRIES)) ∧
    (es.length < MAX_LOG_ENTRIES → es.length ≤ n →
      get_recent_logs_limited (appendAll es) n = es) := by
  obtain ⟨hh, hc, he⟩ := appendAll_state es
  simp only [MAX_LOG_ENTRIES] at hh hc he ⊢
  constructor
  · intro hlen hn
    have hcount : (appendAll es).count = 100 := by omega
    unfold get_recent_logs_limited
    simp only [MAX_LOG_ENTRIES, hcount, hh]
    rw [if_neg (show ¬n < 100 by omega)]
    apply List.ext_getElem
    · simp
      omega
    · intro i h1 h2
      rw [List.length_map, List.length_range] at h1
      simp only [List.getElem_map, List.getElem_range, List.getElem_drop]
      have hmodeq : ((es.length % 100 + 100 - 100) % 100 + i) % 100
          = (es.length - 100 + i) % 100 := by omega
      rw [hmodeq, he (es.length - 100 + i) (by omega) (by omega)]
      rw [List.getD_eq_getElem _ _ (by omega)]
  · intro hlen hn
    have hcount : (appendAll es).count = es.length := by omega
    unfold get_recent_logs_limited
    simp only [MAX_LOG_ENTRIES, hcount, hh]
    rw [if_neg (show ¬n < es.length by omega)]
    apply List.ext_getElem
    · simp
    · intro i h1 h2
      rw [List.length_map, List.length_range] at h1
      simp only [List.getElem_map, List.getElem_range]
      have hmodeq : ((es.length % 100 + 100 - es.length) % 100 + i) % 100
          = i % 100 := by omega
      rw [hmodeq, he i (by omega) (by omega)]
      rw [List.getD_eq_getElem _ _ (by omega)]

/-- 101 distinct concrete entries used to exercise the snapshot theorem. -/
def c5_long_entry_list : List LogEntry :=
  (List.range 101).map
    (fun i => { timestamp := Int.ofNat i, severity := "info", message := "m" })

/-- 2 concrete entries used to exercise the snapshot theorem. -/
def c5_short_entry_list : List LogEntry :=
  [ { timestamp := 0, severity := "info", message := "a" },
    { timestamp := 1, severity := "warning", message := "b" } ]

/-- Witness for C5: 101 appends snapshotted at limit 100 yield the last 100
entries; 2 appends snapshotted at limit 2 yield exactly those 2 entries. -/
theorem C5_log_ring_snapshot_witness :
    get_recent_logs_limited (appendAll c5_long_entry_list) 100
      = c5_long_entry_list.drop (c5_long_entry_list.length - MAX_LOG_ENTRIES) ∧
    get_recent_logs_limited (appendAll c5_short_entry_list) 2 = c5_short_entry_list :=
  ⟨(C5_log_ring_snapshot c5_long_entry_list 100).1
      (by rw [c5_long_entry_list, List.length_map, List.length_range]
          norm_num [MAX_LOG_ENTRIES])
      (by norm_num [MAX_LOG_ENTRIES]),
   (C5_log_ring_snapshot c5_short_entry_list 2).2 (by decide) (by decide)⟩

/-- Left-to-right split of a character list at every occurrence of the
(non-overlapping) separator `sep`, by detecting `sep` as a suffix of the
scanned prefix; agrees with GLib's left-to-right scan for the separators the
server uses ("\r\n" and " "). -/
def splitOnCharsAux (sep : List Char) : List Char → List Char → List (List Char)
  | [], cur => [cur]
  | c :: rest, cur =>
    let cur1 := cur ++ [c]
    if sep ≠ [] ∧ sep.isSuffixOf cur1 then
      (cur1.take (cur1.length - sep.length)) :: splitOnCharsAux sep rest []
    else
      splitOnCharsAux sep rest cur1

def splitOnChars (s sep : List Char) : List (List Char) :=
  splitOnCharsAux sep s []

/-- `g_strsplit(s, sep, -1)` as used by `parse_request` of http_server.c:
the empty string yields no tokens, otherwise the string splits at every
separator occurrence. -/
def gStrsplit (s sep : String) : List String :=
  if s = "" then [] else (splitOnChars s.data sep.data).map String.mk

/-- `g_strsplit(line, " ", 3)`: at most 3 tokens, the remainder kept
unsplit in the last one. -/
def gStrsplitMax3 (line : String) : List String :=
  if line = "" then []
  else
    match splitOnChars line.data [' '] with
    | a :: b :: c :: rest =>
      [String.mk a, String.mk b, String.mk (List.intercalate [' '] (c :: rest))]
    | l => l.map String.mk

/-- The method/path part of `parse_request` of http_server.c: both are set
exactly when the first line of the buffer (up to "\r\n") has at least two
space-separated tokens (`request_line[0] && request_line[1]`); header and
body parsing does not influence dispatch. -/
def parse_request (buffer : String) : Option String × Option String :=
  let lines := gStrsplit buffer "\r\n"
  match gStrsplitMax3 (lines.headD "") with
  | method :: path :: _ => (some method, some path)
  | _ => (none, none)

/-- `HandlerEntry` of http_server.c; the handler function together with its
`user_data` is abstracted as a value of type `H`. -/
structure HandlerEntry (H : Type) where
  path : String
  handler : H
deriving DecidableEq, Repr

/-- Outcome of one request iteration of `http_server_run` of http_server.c. -/
inductive DispatchOutcome (H : Type)
| invoked (handler : H)
| notFound
| badRequest
deriving DecidableEq, Repr

/-- The dispatch step of `http_server_run` of http_server.c: when both method
and path were parsed, walk the registry in order and invoke the first entry
whose path compares equal (`g_strcmp0 == 0`) to the request path, answering
404 when none matches; when method or path is missing, answer 400. -/
def http_server_dispatch {H : Type} (handlers : List (HandlerEntry H))
    (buffer : String) : DispatchOutcome H :=
  match parse_request buffer with
  | (some _method, some path) =>
    match handlers.find? (fun entry => entry.path == path) with
    | some entry => DispatchOutcome.invoked entry.handler
    | none => DispatchOutcome.notFound
  | _ => DispatchOutcome.badRequest

/-- C7: for every received request (at least one byte read): when a method
and a path are both parsed from the request line, the dispatcher invokes the
handler of the first registered entry whose path equals the request path
exactly, and answers 404 when no registered path matches; when parsing does
not produce both, it answers 400. -/
lemma http_server_dispatch_parsed {H : Type} (handlers : List (HandlerEntry H))
    (buffer : String) (method path : String)
    (h : parse_request buffer = (some method, some path)) :
    http_server_dispatch handlers buffer
      = match handlers.find? (fun entry => entry.path == path) with
        | some entry => DispatchOutcome.invoked entry.handler
        | none => DispatchOutcome.notFound := by
  unfold http_server_dispatch
  rw [h]

theorem C7_dispatch_first_match (H : Type) (handlers : List (HandlerEntry H))
    (buffer : String) (_hbuf : buffer ≠ "") :
    (∀ method path, parse_request buffer = (some method, some path) →
      ((∀ before entry rest, handlers = before ++ entry :: rest →
          entry.path = path → (∀ e ∈ before, e.path ≠ path) →
          http_server_dispatch handlers buffer
            = DispatchOutcome.invoked entry.handler) ∧
       ((∀ e ∈ handlers, e.path ≠ path) →
          http_server_dispatch handlers buffer = DispatchOutcome.notFound))) ∧
    ((∀ method path, parse_request buffer ≠ (some method, some path)) →
      http_server_dispatch handlers buffer = DispatchOutcome.badRequest) := by
  constructor
  · intro method path hparse
    constructor
    · intro before entry rest hsplit hentry hnomatch
      rw [http_server_dispatch_parsed handlers buffer method path hparse, hsplit]
      have hfind : (before ++ entry :: rest).find? (fun e => e.path == path)
          = some entry := by
        rw [List.find?_append]
        have hbefore : before.find? (fun e => e.path == path) = none := by
          rw [List.find?_eq_none]
          intro e he
          simpa using hnomatch e he
        rw [hbefore]
        simp [hentry]
      rw [hfind]
    · intro hnomatch
      rw [http_server_dispatch_parsed handlers buffer method path hparse]
      have hfind : handlers.find? (fun e => e.path == path) = none := by
        rw [List.find?_eq_none]
        intro e he
        simpa using hnomatch e he
      rw [hfind]
  · intro hno
    unfold http_server_dispatch
    rcases hp : parse_request buffer with ⟨m, p⟩
    cases m with
    | none => rfl
    | some mv =>
      cases p with
      | none => rfl
      | some pv => exact absurd hp (hno mv pv)

/-- Witness for C7: a concrete GET request dispatched over a two-entry
registry reaches the second entry's handler; with an empty registry the
answer is 404; a one-token request line yields 400. -/
theorem C7_dispatch_first_match_witness :
    parse_request "GET /health HTTP/1.1\r\nHost: x\r\n\r\n"
      = (some "GET", some "/health") ∧
    http_server_dispatch
        [ { path := "/metrics", handler := (0 : ℕ) },
          { path := "/health", handler := 1 } ]
        "GET /health HTTP/1.1\r\nHost: x\r\n\r\n"
      = DispatchOutcome.invoked 1 ∧
    http_server_dispatch ([] : List (HandlerEntry ℕ))
        "GET /health HTTP/1.1\r\nHost: x\r\n\r\n"
      = DispatchOutcome.notFound ∧
    http_server_dispatch ([] : List (HandlerEntry ℕ)) "XYZ\r\n\r\n"
      = DispatchOutcome.badRequest := by
  have hparse : parse_request "GET /health HTTP/1.1\r\nHost: x\r\n\r\n"
      = (some "GET", some "/health") := by decide
  have hbad : parse_request "XYZ\r\n\r\n" = (none, none) := by decide
  refine ⟨hparse, ?_, ?_, ?_⟩
  · exact ((C7_dispatch_first_match ℕ _ _ (by decide)).1 "GET" "/health" hparse).1
      [ { path := "/metrics", handler := 0 } ] { path := "/health", handler := 1 } []
      rfl rfl (by decide)
  · exact ((C7_dispatch_first_match ℕ _ _ (by decide)).1 "GET" "/health" hparse).2
      (by simp)
  · exact (C7_dispatch_first_match ℕ [] _ (by decide)).2
      (fun m p h => by rw [hbad] at h; simp at h)

/-- Decimal rendering of the `%.2f` conversion used by
`append_metric_gauge`: the value rounded to hundredths, printed with exactly
two fractional digits (the binary tie-breaking of C doubles is not modelled;
no claim depends on the digits). -/
def fmt2 (q : ℚ) : String :=
  let cents : ℤ := round (q * 100)
  let sign := if cents < 0 then "-" else ""
  let m := cents.natAbs
  sign ++ toString (m / 100) ++ "." ++
    (if m % 100 < 10 then "0" else "") ++ toString (m % 100)

/-- `append_metric_gauge` of metrics.c. -/
def append_metric_gauge (output : String) (name help : String) (value : ℚ)
    (labels : Option String) : String :=
  output ++ "# HELP " ++ name ++ " " ++ help ++ "\n"
    ++ "# TYPE " ++ name ++ " gauge\n"
    ++ (match labels with
        | some l => name ++ "\x7b" ++ l ++ "\x7d " ++ fmt2 value ++ "\n"
        | none => name ++ " " ++ fmt2 value ++ "\n")

/-- `append_metric_counter` of metrics.c (`%llu` of a `uint64_t`). -/
def append_metric_counter (output : String) (name help : String) (value : ℕ)
    (labels : Option String) : String :=
  output ++ "# HELP " ++ name ++ " " ++ help ++ "\n"
    ++ "# TYPE " ++ name ++ " counter\n"
    ++ (match labels with
        | some l => name ++ "\x7b" ++ l ++ "\x7d " ++ toString value ++ "\n"
        | none => name ++ " " ++ toString value ++ "\n")

/-- Outcomes of the collaborator reads consumed by the collectors of
metrics.c; `none` models the corresponding read failing (for the CPU usage:
no second sample yet, a failed stats read, or a negative delta), in which
case that collector skips its metric and only logs a warning. -/
structure MetricsOutcome where
  uptime : Option ℚ
  memory : Option (ℕ × ℕ)
  load_average_1m : Option ℚ
  cpu_usage : Option ℚ
  network : Option (String × ℕ × ℕ)
  disk : Option (ℕ × ℕ)
  http_requests_total : ℕ
  i2c_errors_total : ℕ
  process_count : Option ℕ
  temperature : Option ℚ

/-- `collect_system_metrics` of metrics.c. -/
def collect_system_metrics (o : MetricsOutcome) (output : String) : String :=
  let out1 := match o.uptime with
    | some u =>
      append_metric_gauge output "ptz_uptime_seconds" "PTZ camera system uptime" u none
    | none => output
  let out2 := match o.memory with
    | some mem =>
      append_metric_gauge
        (append_metric_gauge out1 "ptz_memory_total_bytes" "Total memory in bytes"
          (mem.1 : ℚ) none)
        "ptz_memory_available_bytes" "Available memory in bytes" (mem.2 : ℚ) none
    | none => out1
  let out3 := match o.load_average_1m with
    | some l =>
      append_metric_gauge out2 "ptz_load_average_1m" "1-minute load average" l none
    | none => out2
  match o.cpu_usage with
  | some c =>
    append_metric_gauge out3 "ptz_cpu_usage_percent" "CPU utilization percentage" c none
  | none => out3

/-- `collect_network_metrics` of metrics.c. -/
def collect_network_metrics (o : MetricsOutcome) (output : String) : String :=
  match o.network with
  | none => output
  | some net =>
    let labels := "interface=\"" ++ net.1 ++ "\""
    append_metric_counter
      (append_metric_counter output "ptz_network_rx_bytes_total" "Total bytes received"
        net.2.1 (some labels))
      "ptz_network_tx_bytes_total" "Total bytes transmitted" net.2.2 (some labels)

/-- `collect_disk_metrics` of metrics.c. -/
def collect_disk_metrics (o : MetricsOutcome) (output : String) : String :=
  match o.disk with
  | none => output
  | some d =>
    append_metric_gauge
      (append_metric_gauge output "ptz_disk_total_bytes" "Total disk space in bytes"
        (d.1 : ℚ) none)
      "ptz_disk_free_bytes" "Free disk space in bytes" (d.2 : ℚ) none

/-- `collect_service_metrics` of metrics.c: the two application counters are
appended unconditionally; the process count is skipped on failure. -/
def collect_service_metrics (o : MetricsOutcome) (output : String) : String :=
  let out1 := append_metric_counter output "ptz_http_requests_total"
    "Total HTTP requests handled" o.http_requests_total none
  let out2 := append_metric_counter out1 "ptz_i2c_errors_total"
    "Total I2C communication errors" o.i2c_errors_total none
  match o.process_count with
  | some p =>
    append_metric_gauge out2 "ptz_process_count" "Number of running processes" (p : ℚ) none
  | none => out2

/-- `collect_vapix_metrics` of metrics.c: skipped entirely when the cached
temperature is unavailable. -/
def collect_vapix_metrics (o : MetricsOutcome) (output : String) : String :=
  match o.temperature with
  | some t =>
    append_metric_gauge output "ptz_temperature_celsius" "Camera temperature in Celsius"
      t none
  | none => output

/-- The trailing-newline fix of `metrics_handler` of metrics.c:
`if (metrics->len > 0 && metrics->str[metrics->len - 1] != '\n')` append
a newline. -/
def ensure_trailing_newline (s : String) : String :=
  if 0 < s.length ∧ s.data.getLast? ≠ some '\n' then s ++ "\n" else s

/-- The response body built by `metrics_handler` of metrics.c for a GET
request: the five collectors in order, then the trailing-newline fix. -/
def metrics_get_body (o : MetricsOutcome) : String :=
  ensure_trailing_newline
    (collect_vapix_metrics o
      (collect_service_metrics o
        (collect_disk_metrics o
          (collect_network_metrics o
            (collect_system_metrics o "")))))

inductive MetricsResponse
| ok (body : String)
| methodNotAllowed
deriving DecidableEq, Repr

/-- `metrics_handler` of metrics.c: a non-GET method is answered 405,
a GET receives the collected exposition text. -/
def metrics_handler (method : String) (o : MetricsOutcome) : MetricsResponse :=
  if method = "GET" then MetricsResponse.ok (metrics_get_body o)
  else MetricsResponse.methodNotAllowed

/-- The property claimed of the metrics body: its last character is a
newline (in particular it is non-empty). -/
def endsWithNewline (s : String) : Prop :=
  s.data.getLast? = some '\n'

lemma endsWithNewline_concat (a : String) : endsWithNewline (a ++ "\n") := by
  unfold endsWithNewline
  rw [String.data_append]
  exact List.getLast?_concat a.data

lemma endsWithNewline_append (a b : String) (h : endsWithNewline b) :
    endsWithNewline (a ++ b) := by
  unfold endsWithNewline at h ⊢
  rw [String.data_append, List.getLast?_append, h]
  rfl

lemma append_metric_gauge_endsNL (output name help : String) (value : ℚ)
    (labels : Option String) :
    endsWithNewline (append_metric_gauge output name help value labels) := by
  unfold append_metric_gauge
  cases labels <;> exact endsWithNewline_append _ _ (endsWithNewline_concat _)

lemma append_metric_counter_endsNL (output name help : String) (value : ℕ)
    (labels : Option String) :
    endsWithNewline (append_metric_counter output name help value labels) := by
  unfold append_metric_counter
  cases labels <;> exact endsWithNewline_append _ _ (endsWithNewline_concat _)

lemma collect_service_metrics_endsNL (o : MetricsOutcome) (output : String) :
    endsWithNewline (collect_service_metrics o output) := by
  unfold collect_service_metrics
  cases o.process_count with
  | some p => exact append_metric_gauge_endsNL _ _ _ _ _
  | none => exact append_metric_counter_endsNL _ _ _ _ _

lemma collect_vapix_metrics_endsNL (o : MetricsOutcome) (output : String)
    (h : endsWithNewline output) :
    endsWithNewline (collect_vapix_metrics o output) := by
  unfold collect_vapix_metrics
  cases o.temperature with
  | some t => exact append_metric_gauge_endsNL _ _ _ _ _
  | none => exact h

lemma ensure_trailing_newline_endsNL (s : String) (h : endsWithNewline s) :
    ensure_trailing_newline s = s ∧ endsWithNewline (ensure_trailing_newline s) := by
  unfold ensure_trailing_newline
  rw [if_neg]
  · exact ⟨rfl, h⟩
  · intro hcond
    exact hcond.2 h

/-- C6: for every outcome of the metric collectors — including the one where
every fallible collector fails and contributes nothing (the two service
counters are appended unconditionally, so the body is never empty) — the
body produced by `metrics_handler` for a GET request ends with a trailing
newline character. -/
theorem C6_metrics_body_trailing_newline (o : MetricsOutcome) :
    metrics_handler "GET" o = MetricsResponse.ok (metrics_get_body o) ∧
    endsWithNewline (metrics_get_body o) := by
  refine ⟨rfl, ?_⟩
  unfold metrics_get_body
  exact (ensure_trailing_newline_endsNL _
    (collect_vapix_metrics_endsNL _ _ (collect_service_metrics_endsNL _ _))).2

end AxisLH
